import Mathlib

/-!
Shallow embedding of the viewport reveal controllers of the landing page.

The repository's only algorithmic core is the scroll-triggered reveal
behaviour implemented twice, in the `Page4` and `Page5` components: a
`useEffect` creates an `IntersectionObserver` whose callback adds the
CSS class `show` to every intersecting entry's target, observes each
non-null element stored in a ref array, and on cleanup unobserves them.

Elements are identified by their slot index (a natural number).  The
`show` class mark of an element is its revealed state, modelled as a
boolean-valued function of the element identity.  Ratios and thresholds
are rationals; the callbacks never read the ratio.
-/

/-- An entry passed by the platform to an IntersectionObserver callback:
the target element (identified by slot index), the intersection ratio
(the source field `intersectionRatio`, never read by the callbacks),
and the `isIntersecting` flag. -/
structure ObserverEntry where
  target : Nat
  ratioValue : ℚ
  isIntersecting : Bool
deriving DecidableEq

/-- Model of `classList.add('show')` on the element `t`: the mark becomes
set on `t` and every other element's mark is unchanged (adding a class an
element already has changes nothing). -/
def classAdd (r : Nat → Bool) (t : Nat) : Nat → Bool :=
  fun x => if x = t then true else r x

/-- Model of `IntersectionObserver.observe(t)`: `t` joins the observed
set; observing an already-observed target is a no-op. -/
def observeTarget (obs : List Nat) (t : Nat) : List Nat :=
  if t ∈ obs then obs else obs ++ [t]

/-- Model of `IntersectionObserver.unobserve(t)`: `t` leaves the observed
set. -/
def unobserveTarget (obs : List Nat) (t : Nat) : List Nat :=
  obs.filter (fun x => x != t)

/-- The state of one mounted view: the ref array of registered element
handles (`none` models a null ref slot), the per-element revealed mark
(the `show` class), and the set of elements currently observed by the
platform facility. -/
structure RevealState where
  registry : List (Option Nat)
  revealed : Nat → Bool
  observed : List Nat

/-- The operations that can happen to a mounted view: the effect body
runs (`start`), the platform delivers a batch of entries to the observer
callback (`deliver`), or the effect cleanup runs (`stop`). -/
inductive RevealOp where
  | start
  | deliver (entries : List ObserverEntry)
  | stop

/-- The ref callback `el => pointsRef.current[i] = el` (and likewise for
`boxRefs`): stores the handle, possibly null, at the slot. -/
def registerAt (registry : List (Option Nat)) (i : Nat) (el : Option Nat) :
    List (Option Nat) :=
  registry.set i el

/-- Threshold option passed to the IntersectionObserver of `Page4`
(source: `{ threshold: 0.3 }`). -/
def Page4.threshold : ℚ := 3/10

/-- The IntersectionObserver callback of `Page4`:
`entries.forEach(entry => { if (entry.isIntersecting) { entry.target.classList.add('show') } })`. -/
def Page4.callback (entries : List ObserverEntry) (r : Nat → Bool) : Nat → Bool :=
  entries.foldl
    (fun acc entry => if entry.isIntersecting then classAdd acc entry.target else acc) r

/-- The observation pass of the `Page4` effect:
`pointsRef.current.forEach(point => { if (point) observer.observe(point) })`. -/
def Page4.observeAll (registry : List (Option Nat)) (obs : List Nat) : List Nat :=
  registry.foldl
    (fun acc point =>
      match point with
      | some p => observeTarget acc p
      | none => acc) obs

/-- The cleanup of the `Page4` effect:
`pointsRef.current.forEach(point => { if (point) observer.unobserve(point) })`. -/
def Page4.unobserveAll (registry : List (Option Nat)) (obs : List Nat) : List Nat :=
  registry.foldl
    (fun acc point =>
      match point with
      | some p => unobserveTarget acc p
      | none => acc) obs

/-- One operation on the `Page4` view state.  Delivering entries runs the
observer callback on the revealed marks; `start` and `stop` act on the
observed set only — neither touches any revealed mark. -/
def Page4.step (s : RevealState) : RevealOp → RevealState
  | .start => { s with observed := Page4.observeAll s.registry s.observed }
  | .deliver entries => { s with revealed := Page4.callback entries s.revealed }
  | .stop => { s with observed := Page4.unobserveAll s.registry s.observed }

/-- Run a sequence of operations on the `Page4` view state. -/
def Page4.run (s : RevealState) (ops : List RevealOp) : RevealState :=
  ops.foldl Page4.step s

/-- A thrown JS error: evaluating `new IntersectionObserver(...)` when the
global `IntersectionObserver` is not defined throws a ReferenceError. -/
inductive JSError where
  | refError
deriving DecidableEq

/-- The `Page4` effect body.  It evaluates `new IntersectionObserver(...)`
unconditionally — the source contains no feature check — so when the
facility is unavailable the construction throws; otherwise every
registered non-null element is observed and no revealed mark changes. -/
def Page4.runEffect (available : Bool) (s : RevealState) :
    Except JSError RevealState :=
  if available then
    Except.ok { s with observed := Page4.observeAll s.registry s.observed }
  else
    Except.error JSError.refError

/-- Threshold option passed to the IntersectionObserver of `Page5`
(source: `{ threshold: 0.2 }`). -/
def Page5.threshold : ℚ := 1/5

/-- The IntersectionObserver callback of `Page5`:
`entries.forEach((entry) => { if (entry.isIntersecting) { entry.target.classList.add('show') } })`. -/
def Page5.callback (entries : List ObserverEntry) (r : Nat → Bool) : Nat → Bool :=
  entries.foldl
    (fun acc entry => if entry.isIntersecting then classAdd acc entry.target else acc) r

/-- The observation pass of the `Page5` effect:
`boxRefs.current.forEach((box) => { if (box) observer.observe(box) })`. -/
def Page5.observeAll (registry : List (Option Nat)) (obs : List Nat) : List Nat :=
  registry.foldl
    (fun acc box =>
      match box with
      | some p => observeTarget acc p
      | none => acc) obs

/-- The cleanup of the `Page5` effect:
`boxRefs.current.forEach((box) => { if (box) observer.unobserve(box) })`. -/
def Page5.unobserveAll (registry : List (Option Nat)) (obs : List Nat) : List Nat :=
  registry.foldl
    (fun acc box =>
      match box with
      | some p => unobserveTarget acc p
      | none => acc) obs

/-- One operation on the `Page5` view state. -/
def Page5.step (s : RevealState) : RevealOp → RevealState
  | .start => { s with observed := Page5.observeAll s.registry s.observed }
  | .deliver entries => { s with revealed := Page5.callback entries s.revealed }
  | .stop => { s with observed := Page5.unobserveAll s.registry s.observed }

/-- Run a sequence of operations on the `Page5` view state. -/
def Page5.run (s : RevealState) (ops : List RevealOp) : RevealState :=
  ops.foldl Page5.step s

/-- A freshly mounted view with elements registered at slots 0–3 (the four
point items of `Page4`, or the four benefit boxes of `Page5`), nothing
revealed and nothing observed yet. -/
def mkState (registry : List (Option Nat)) : RevealState :=
  { registry := registry, revealed := fun _ => false, observed := [] }

/-- The `Page4` registry right after mount: four point elements at
slots 0–3. -/
def init4 : RevealState :=
  mkState [some 0, some 1, some 2, some 3]

/-- Whether an entry is an intersecting entry for the target `t`. -/
def entryHits (t : Nat) (entry : ObserverEntry) : Bool :=
  entry.target == t && entry.isIntersecting

/-- Whether an operation delivers an intersecting entry for the target `t`. -/
def opHits (t : Nat) : RevealOp → Bool
  | .deliver entries => entries.any (entryHits t)
  | _ => false

/-- Whether some operation of a sequence delivers an intersecting entry
for the target `t`. -/
def opsHit (ops : List RevealOp) (t : Nat) : Bool :=
  ops.any (opHits t)

/-- Two observer entries agree when they have the same target and the
same `isIntersecting` flag; the intersection ratio may differ. -/
def EntryAgree (e₁ e₂ : ObserverEntry) : Prop :=
  e₁.target = e₂.target ∧ e₁.isIntersecting = e₂.isIntersecting

/-- Two operations agree when they are the same operation up to
intersection ratios. -/
def OpAgree : RevealOp → RevealOp → Prop
  | .start, .start => True
  | .stop, .stop => True
  | .deliver l₁, .deliver l₂ => List.Forall₂ EntryAgree l₁ l₂
  | _, _ => False

theorem Page4.run_cons (s : RevealState) (op : RevealOp) (ops : List RevealOp) :
    Page4.run s (op :: ops) = Page4.run (Page4.step s op) ops := rfl

theorem Page4.observeAll_cons (p : Option Nat) (rest : List (Option Nat))
    (obs : List Nat) :
    Page4.observeAll (p :: rest) obs =
      Page4.observeAll rest (match p with | some x => observeTarget obs x | none => obs) := rfl

theorem Page4.unobserveAll_cons (p : Option Nat) (rest : List (Option Nat))
    (obs : List Nat) :
    Page4.unobserveAll (p :: rest) obs =
      Page4.unobserveAll rest (match p with | some x => unobserveTarget obs x | none => obs) := rfl

theorem mem_observeTarget (obs : List Nat) (x t : Nat) :
    t ∈ observeTarget obs x ↔ t ∈ obs ∨ t = x := by
  unfold observeTarget
  by_cases h : x ∈ obs
  · simp only [if_pos h]
    constructor
    · exact Or.inl
    · rintro (h1 | rfl)
      · exact h1
      · exact h
  · simp [if_neg h]

theorem mem_unobserveTarget (obs : List Nat) (x t : Nat) :
    t ∈ unobserveTarget obs x ↔ t ∈ obs ∧ t ≠ x := by
  simp [unobserveTarget, List.mem_filter]

theorem mem_observeAll (reg : List (Option Nat)) (obs : List Nat) (t : Nat) :
    t ∈ Page4.observeAll reg obs ↔ t ∈ obs ∨ some t ∈ reg := by
  induction reg generalizing obs with
  | nil => simp [Page4.observeAll]
  | cons p rest ih =>
    rw [Page4.observeAll_cons]
    cases p with
    | none => rw [ih]; simp
    | some x =>
      rw [ih, mem_observeTarget]
      simp [or_assoc]

theorem mem_unobserveAll (reg : List (Option Nat)) (obs : List Nat) (t : Nat) :
    t ∈ Page4.unobserveAll reg obs ↔ t ∈ obs ∧ some t ∉ reg := by
  induction reg generalizing obs with
  | nil => simp [Page4.unobserveAll]
  | cons p rest ih =>
    rw [Page4.unobserveAll_cons]
    cases p with
    | none => rw [ih]; simp
    | some x =>
      rw [ih, mem_unobserveTarget]
      simp only [List.mem_cons, Option.some.injEq, not_or]
      tauto

theorem unobserveAll_of_disjoint (reg : List (Option Nat)) (obs : List Nat)
    (h : ∀ t ∈ obs, some t ∉ reg) : Page4.unobserveAll reg obs = obs := by
  induction reg generalizing obs with
  | nil => rfl
  | cons p rest ih =>
    rw [Page4.unobserveAll_cons]
    cases p with
    | none =>
      exact ih obs (fun t ht hmem => h t ht (List.mem_cons_of_mem _ hmem))
    | some x =>
      have hfilter : unobserveTarget obs x = obs := by
        unfold unobserveTarget
        apply List.filter_eq_self.mpr
        intro a ha
        have : a ≠ x := by
          intro hax
          exact h a ha (hax ▸ List.mem_cons_self _ _)
        simpa using this
      show Page4.unobserveAll rest (unobserveTarget obs x) = obs
      rw [hfilter]
      exact ih obs (fun t ht hmem => h t ht (List.mem_cons_of_mem _ hmem))

theorem unobserveAll_idem (reg : List (Option Nat)) (obs : List Nat) :
    Page4.unobserveAll reg (Page4.unobserveAll reg obs) = Page4.unobserveAll reg obs :=
  unobserveAll_of_disjoint reg _ (fun t ht => ((mem_unobserveAll reg obs t).mp ht).2)

theorem unobserveAll_observeAll_nil (reg : List (Option Nat)) :
    Page4.unobserveAll reg (Page4.observeAll reg []) = [] := by
  rw [List.eq_nil_iff_forall_not_mem]
  intro t ht
  obtain ⟨hmem, hnot⟩ := (mem_unobserveAll reg _ t).mp ht
  rcases (mem_observeAll reg [] t).mp hmem with h | h
  · simp at h
  · exact hnot h

theorem classAdd_mono (r : Nat → Bool) (u t : Nat) (h : r t = true) :
    classAdd r u t = true := by
  unfold classAdd
  split <;> simp [h]

theorem classAdd_of_already (r : Nat → Bool) (u : Nat) (h : r u = true) :
    classAdd r u = r := by
  funext x
  unfold classAdd
  split
  · next heq => rw [heq, h]
  · rfl

theorem Page4.callback_cons (entry : ObserverEntry) (rest : List ObserverEntry)
    (r : Nat → Bool) :
    Page4.callback (entry :: rest) r =
      Page4.callback rest (if entry.isIntersecting then classAdd r entry.target else r) := rfl

theorem Page4.callback_mono (entries : List ObserverEntry) (r : Nat → Bool)
    (t : Nat) (h : r t = true) : Page4.callback entries r t = true := by
  induction entries generalizing r with
  | nil => exact h
  | cons entry rest ih =>
    rw [Page4.callback_cons]
    cases hI : entry.isIntersecting
    · simpa [hI] using ih r h
    · simpa [hI] using ih _ (classAdd_mono r entry.target t h)

theorem Page4.callback_notHit (entries : List ObserverEntry) (r : Nat → Bool)
    (t : Nat) (h0 : r t = false) (h : entries.any (entryHits t) = false) :
    Page4.callback entries r t = false := by
  induction entries generalizing r with
  | nil => exact h0
  | cons entry rest ih =>
    rw [List.any_cons, Bool.or_eq_false_iff] at h
    rw [Page4.callback_cons]
    cases hI : entry.isIntersecting
    · simpa [hI] using ih r h0 h.2
    · have htarget : entry.target ≠ t := by
        intro heq
        have := h.1
        rw [entryHits, heq, hI] at this
        simp at this
      have hstep : classAdd r entry.target t = false := by
        unfold classAdd
        rw [if_neg (fun heq => htarget heq.symm)]
        exact h0
      simpa [hI] using ih _ hstep h.2

theorem Page4.callback_all_nonintersecting (entries : List ObserverEntry)
    (r : Nat → Bool) (h : entries.all (fun entry => !entry.isIntersecting) = true) :
    Page4.callback entries r = r := by
  induction entries with
  | nil => rfl
  | cons entry rest ih =>
    rw [List.all_cons, Bool.and_eq_true] at h
    rw [Page4.callback_cons]
    have hI : entry.isIntersecting = false := by
      simpa using h.1
    rw [hI]
    simpa using ih h.2

/-- C1: once an intersection event has set an element's revealed mark to
true, no later operation — any further delivery (intersecting or not),
another start, or the stop cleanup — ever sets it back to false: the
callback only adds the mark and `start`/`stop` never touch it. -/
theorem revealed_monotonic (s : RevealState) (t : Nat) (ops : List RevealOp)
    (h : s.revealed t = true) : (Page4.run s ops).revealed t = true := by
  induction ops generalizing s with
  | nil => exact h
  | cons op rest ih =>
    rw [Page4.run_cons]
    cases op with
    | start => exact ih _ h
    | stop => exact ih _ h
    | deliver entries => exact ih _ (Page4.callback_mono entries s.revealed t h)

/-- Witness for C1: slot 0 is revealed by an intersection event, and stays
revealed through a subsequent stop and a non-intersecting delivery. -/
theorem revealed_monotonic_witness :
    (Page4.run init4 [RevealOp.start, RevealOp.deliver [⟨0, 1/2, true⟩]]).revealed 0 = true ∧
    (Page4.run (Page4.run init4 [RevealOp.start, RevealOp.deliver [⟨0, 1/2, true⟩]])
      [RevealOp.stop, RevealOp.deliver [⟨0, 0, false⟩]]).revealed 0 = true :=
  ⟨by decide, revealed_monotonic _ 0 [RevealOp.stop, RevealOp.deliver [⟨0, 0, false⟩]] (by decide)⟩

/-- The `Page4` view after the spec's scenario prefix: slot 0 revealed by
an intersection event, then the cleanup has run. -/
def afterStop4 : RevealState :=
  Page4.run init4 [RevealOp.start, RevealOp.deliver [⟨0, 1, true⟩], RevealOp.stop]

/-- C2 counterexample: the observer callback performs no
registered/observed check, so a late intersecting delivery after the
cleanup for the not-yet-revealed slot 1 does change its revealed state
from false to true — contradicting the claim that every late event
leaves all revealed states unchanged. -/
theorem late_event_changes_state :
    afterStop4.revealed 1 = false ∧
    (Page4.step afterStop4 (RevealOp.deliver [⟨1, 1, true⟩])).revealed 1 = true :=
  ⟨by decide, by decide⟩

/-- C2 (amended): a late delivery after the cleanup raises no failure and
in the spec's scenario (slot 0 already revealed) changes no revealed state
— re-adding the mark is idempotent — and never touches the observed set;
but because the callback performs no registered/observed check, a late
intersecting delivery for a not-yet-revealed element still reveals it. -/
theorem late_event_after_stop :
    (∀ t, (Page4.step afterStop4 (RevealOp.deliver [⟨0, 1, true⟩])).revealed t =
      afterStop4.revealed t) ∧
    (Page4.step afterStop4 (RevealOp.deliver [⟨0, 1, true⟩])).observed = afterStop4.observed ∧
    (Page4.step afterStop4 (RevealOp.deliver [⟨1, 1, true⟩])).revealed 1 = true := by
  refine ⟨?_, rfl, by decide⟩
  have h0 : afterStop4.revealed 0 = true := by decide
  have hca : classAdd afterStop4.revealed 0 = afterStop4.revealed :=
    classAdd_of_already _ _ h0
  intro t
  show classAdd afterStop4.revealed 0 t = afterStop4.revealed t
  rw [hca]

/-- C3 counterexample: when the intersection-detection facility is
unavailable, the effect is not a silent no-op — evaluating
`new IntersectionObserver(...)` (the source has no feature check) throws,
so an error is raised. -/
theorem start_unavailable_raises :
    Page4.runEffect false init4 = Except.error JSError.refError := rfl

/-- C3 (amended): with the facility unavailable the effect throws a
ReferenceError — it does not fail silently — and no element is revealed by
it; with the facility available the effect only starts observations and
leaves every revealed mark unchanged. -/
theorem start_unavailable_behavior (s : RevealState) :
    Page4.runEffect false s = Except.error JSError.refError ∧
    Page4.runEffect true s =
      Except.ok { s with observed := Page4.observeAll s.registry s.observed } :=
  ⟨rfl, rfl⟩

/-- C4: with four elements at slots 0–3 and the Page4 observer started at
threshold 0.3, delivering one intersection event for slot 2 with ratio 0.5
and isIntersecting true reveals slot 2 only; slots 0, 1 and 3 stay
unrevealed. -/
theorem scenario_slot2_only :
    Page4.threshold = 3/10 ∧
    (Page4.run init4 [RevealOp.start, RevealOp.deliver [⟨2, 1/2, true⟩]]).revealed 2 = true ∧
    (Page4.run init4 [RevealOp.start, RevealOp.deliver [⟨2, 1/2, true⟩]]).revealed 0 = false ∧
    (Page4.run init4 [RevealOp.start, RevealOp.deliver [⟨2, 1/2, true⟩]]).revealed 1 = false ∧
    (Page4.run init4 [RevealOp.start, RevealOp.deliver [⟨2, 1/2, true⟩]]).revealed 3 = false :=
  ⟨rfl, by decide, by decide, by decide, by decide⟩

/-- C5: an element's revealed mark is true only if some delivered batch
contained an intersecting entry for it — starting unrevealed, an element
for which no intersecting entry is ever delivered stays unrevealed. -/
theorem revealed_requires_hit (s : RevealState) (ops : List RevealOp) (t : Nat)
    (h0 : s.revealed t = false) (h : opsHit ops t = false) :
    (Page4.run s ops).revealed t = false := by
  induction ops generalizing s with
  | nil => exact h0
  | cons op rest ih =>
    simp only [opsHit, List.any_cons, Bool.or_eq_false_iff] at h
    rw [Page4.run_cons]
    cases op with
    | start => exact ih _ h0 h.2
    | stop => exact ih _ h0 h.2
    | deliver entries =>
      exact ih _ (Page4.callback_notHit entries s.revealed t h0 h.1) h.2

/-- Witness for C5: slot 1 never receives an intersecting entry across a
start, a delivery for slot 0 and the cleanup, and stays unrevealed. -/
theorem revealed_requires_hit_witness :
    (init4.revealed 1 = false ∧
      opsHit [RevealOp.start, RevealOp.deliver [⟨0, 1, true⟩], RevealOp.stop] 1 = false) ∧
    (Page4.run init4 [RevealOp.start, RevealOp.deliver [⟨0, 1, true⟩], RevealOp.stop]).revealed 1 = false :=
  ⟨⟨rfl, by decide⟩,
    revealed_requires_hit init4 [RevealOp.start, RevealOp.deliver [⟨0, 1, true⟩], RevealOp.stop] 1
      rfl (by decide)⟩

/-- The `Page5` callback is the same function as the `Page4` callback. -/
theorem Page5.callback_eq : Page5.callback = Page4.callback := rfl

/-- The `Page5` registry right after mount: four benefit boxes at
slots 0–3. -/
def init5 : RevealState :=
  mkState [some 0, some 1, some 2, some 3]

/-- C6: a delivered batch in which every entry has isIntersecting false
causes no action at all in the Page5 controller: the state — every
revealed mark included — is exactly unchanged, so in particular a revealed
element is never un-revealed. -/
theorem nonintersecting_no_action (s : RevealState) (entries : List ObserverEntry)
    (h : entries.all (fun entry => !entry.isIntersecting) = true) :
    Page5.step s (RevealOp.deliver entries) = s := by
  show { s with revealed := Page5.callback entries s.revealed } = s
  rw [Page5.callback_eq, Page4.callback_all_nonintersecting entries s.revealed h]

/-- Witness for C6: after mounting Page5 and starting the observer, a
non-intersecting entry for slot 1 leaves the state unchanged. -/
theorem nonintersecting_no_action_witness :
    List.all [({ target := 1, ratioValue := 0, isIntersecting := false } : ObserverEntry)]
      (fun entry => !entry.isIntersecting) = true ∧
    Page5.step (Page5.run init5 [RevealOp.start])
      (RevealOp.deliver [⟨1, 0, false⟩]) = Page5.run init5 [RevealOp.start] :=
  ⟨by decide, nonintersecting_no_action (Page5.run init5 [RevealOp.start]) _ (by decide)⟩

/-- C7: the cleanup before any delivery leaves every element unrevealed
and empties the observed set; running it without a prior start (or with
any registry, empty handles included) is safe and leaves nothing observed
and nothing revealed; and running the cleanup twice equals running it
once. -/
theorem stop_semantics (reg : List (Option Nat)) (s : RevealState) :
    ((Page4.run (mkState reg) [RevealOp.start, RevealOp.stop]).observed = [] ∧
      ∀ t, (Page4.run (mkState reg) [RevealOp.start, RevealOp.stop]).revealed t = false) ∧
    ((Page4.run (mkState reg) [RevealOp.stop]).observed = [] ∧
      ∀ t, (Page4.run (mkState reg) [RevealOp.stop]).revealed t = false) ∧
    Page4.step (Page4.step s RevealOp.stop) RevealOp.stop = Page4.step s RevealOp.stop := by
  refine ⟨⟨?_, fun t => rfl⟩, ⟨?_, fun t => rfl⟩, ?_⟩
  · show Page4.unobserveAll reg (Page4.observeAll reg []) = []
    exact unobserveAll_observeAll_nil reg
  · show Page4.unobserveAll reg [] = []
    exact unobserveAll_of_disjoint reg [] (by simp)
  · show { s with observed := Page4.unobserveAll s.registry (Page4.unobserveAll s.registry s.observed) } =
      { s with observed := Page4.unobserveAll s.registry s.observed }
    rw [unobserveAll_idem]

/-- C8: a null handle stored at a slot is silently ignored — the
observation pass observes exactly the registered non-null elements, both
for an arbitrary registry and for a registry in which a slot was
registered with an absent handle, so no observation is ever created for
an absent handle. -/
theorem register_none_ignored (reg : List (Option Nat)) (i t : Nat) :
    (t ∈ Page4.observeAll reg [] ↔ some t ∈ reg) ∧
    (t ∈ Page4.observeAll (registerAt reg i none) [] ↔ some t ∈ registerAt reg i none) := by
  constructor
  · rw [mem_observeAll]
    simp
  · rw [mem_observeAll]
    simp

/-- C9: the Page4 and Page5 controllers compute the same state
transformation — their runs agree on every start state and every operation
sequence — and they differ only in the threshold passed to the observer:
0.3 for Page4 and 0.2 for Page5. -/
theorem controllers_equivalent :
    (∀ (s : RevealState) (ops : List RevealOp), Page4.run s ops = Page5.run s ops) ∧
    Page4.threshold = 3/10 ∧ Page5.threshold = 1/5 ∧
    Page4.threshold ≠ Page5.threshold :=
  ⟨fun _ _ => rfl, rfl, rfl, by norm_num [Page4.threshold, Page5.threshold]⟩

theorem Page4.callback_agree (l₁ l₂ : List ObserverEntry)
    (h : List.Forall₂ EntryAgree l₁ l₂) (r : Nat → Bool) :
    Page4.callback l₁ r = Page4.callback l₂ r := by
  induction h generalizing r with
  | nil => rfl
  | @cons e₁ e₂ rest₁ rest₂ hpair htail ih =>
    obtain ⟨ht, hi⟩ := hpair
    rw [Page4.callback_cons, Page4.callback_cons, ht, hi]
    exact ih _

theorem Page4.step_agree (s : RevealState) (op₁ op₂ : RevealOp)
    (h : OpAgree op₁ op₂) : Page4.step s op₁ = Page4.step s op₂ := by
  cases op₁ with
  | start =>
    cases op₂ with
    | start => rfl
    | deliver l => exact False.elim h
    | stop => exact False.elim h
  | deliver l₁ =>
    cases op₂ with
    | start => exact False.elim h
    | deliver l₂ =>
      show { s with revealed := Page4.callback l₁ s.revealed } =
        { s with revealed := Page4.callback l₂ s.revealed }
      rw [Page4.callback_agree l₁ l₂ h]
    | stop => exact False.elim h
  | stop =>
    cases op₂ with
    | start => exact False.elim h
    | deliver l => exact False.elim h
    | stop => rfl

/-- C10: the controller is deterministic — the outcome of a run depends
only on the delivered operations' targets and isIntersecting flags; two
runs from the same state whose operation sequences agree (ratios may
differ arbitrarily) end in identical states, and in particular re-running
the very same sequence yields the identical result. -/
theorem deterministic_run (s : RevealState) (ops₁ ops₂ : List RevealOp)
    (h : List.Forall₂ OpAgree ops₁ ops₂) :
    Page4.run s ops₁ = Page4.run s ops₂ := by
  induction h generalizing s with
  | nil => rfl
  | @cons op₁ op₂ rest₁ rest₂ hop htail ih =>
    rw [Page4.run_cons, Page4.run_cons, Page4.step_agree s op₁ op₂ hop]
    exact ih _

/-- Witness for C10: two deliveries for slot 2 that differ only in their
intersection ratio (0.5 against 0.9) produce the identical final state. -/
theorem deterministic_run_witness :
    List.Forall₂ OpAgree [RevealOp.deliver [⟨2, 1/2, true⟩]]
      [RevealOp.deliver [⟨2, 9/10, true⟩]] ∧
    Page4.run init4 [RevealOp.deliver [⟨2, 1/2, true⟩]] =
      Page4.run init4 [RevealOp.deliver [⟨2, 9/10, true⟩]] := by
  have hagree : List.Forall₂ OpAgree [RevealOp.deliver [⟨2, 1/2, true⟩]]
      [RevealOp.deliver [⟨2, 9/10, true⟩]] := by
    refine List.Forall₂.cons ?_ List.Forall₂.nil
    show List.Forall₂ EntryAgree [⟨2, 1/2, true⟩] [⟨2, 9/10, true⟩]
    exact List.Forall₂.cons ⟨rfl, rfl⟩ List.Forall₂.nil
  exact ⟨hagree, deterministic_run init4 _ _ hagree⟩
